import Mathlib

/-!
Shallow embedding of the AudioVisualizer web application: the modules
audioContext.js, utils.js, toneGenerator.js, mp3Handler.js and visualizer.js.

Modelling conventions: JavaScript numbers that may be NaN or infinite are
modelled by `JsNum`; `Math.random()` is modelled by an explicit stream of
rationals; the Web Audio graph is modelled by explicit connection lists;
`alert` and `console.error`/`console.warn` output are modelled as string lists
in the state; a thrown JavaScript exception is modelled as `Option String`
(`some` = thrown, `none` = normal return).
-/

namespace AudioViz

/-- State of the shared AudioContext (the value of audioContext.state). -/
inductive CtxState
  | running
  | suspended
  | closed
deriving DecidableEq

/-- A JavaScript number as produced by parseFloat: NaN, an infinity, or a
finite value (finite values modelled by rationals). -/
inductive JsNum
  | nan
  | posInf
  | negInf
  | finite (q : ℚ)
deriving DecidableEq

/-- Result of the JavaScript test isNaN(x). -/
def JsNum.isNaN : JsNum → Bool
  | .nan => true
  | _ => false

/-- Result of the JavaScript comparison x <= 0 (false on NaN). -/
def JsNum.le0 : JsNum → Bool
  | .nan => false
  | .posInf => false
  | .negInf => true
  | .finite q => decide (q ≤ 0)

/-- Shared engine state together with the console log and the alert sink, as
seen by every module (audioContext.js exports the shared audioContext and
analyser; utils.js operates on both).  `resumeWorks` models whether the host
lets audioContext.resume() succeed; `analyserLinked` models whether the
analyser is currently connected to audioContext.destination. -/
structure SysState where
  ctx : CtxState
  resumeWorks : Bool
  analyserPresent : Bool
  analyserLinked : Bool
  log : List String
  alerts : List String
deriving DecidableEq

/-- Observable events of a single engine operation, used to state ordering
properties of the audio-graph calls. -/
inductive Ev
  | ensureActive
  | ensureOutput
  | stoppedPrior (id : ℕ)
  | created (id : ℕ)
  | connectedEv (id : ℕ)
  | started (id : ℕ)
  | visualizeCalled
deriving DecidableEq

/-- Embedding of ensureAudioContextActive (utils.js).  Returns the new state,
the error thrown to the caller (`some` = throw), and the emitted events.  When
the context is suspended, resume() either succeeds (ctx becomes running) or
rejects, in which case the catch clause logs, alerts and rethrows. -/
def ensureAudioContextActive (s : SysState) : SysState × Option String × List Ev :=
  if s.ctx = CtxState.suspended then
    if s.resumeWorks then
      ({ s with ctx := CtxState.running,
                log := s.log ++ ["AudioContext resumed successfully"] },
       none, [Ev.ensureActive])
    else
      ({ s with log := s.log ++ ["Failed to resume AudioContext:"],
                alerts := s.alerts ++
                  ["Audio playback is blocked. Please interact with the page to enable sound."] },
       some "AudioContext could not be resumed.", [Ev.ensureActive])
  else (s, none, [Ev.ensureActive])

/-- The try block of ensureAnalyserOutput (utils.js): throws when the analyser
is absent or its context is closed, otherwise connects the analyser to the
destination. -/
def ensureAnalyserOutputBody (s : SysState) : SysState × Option String :=
  if s.analyserPresent = false ∨ s.ctx = CtxState.closed then
    (s, some "Analyser node is invalid or closed.")
  else
    ({ s with analyserLinked := true,
              log := s.log ++ ["Analyser connected to destination"] }, none)

/-- Embedding of ensureAnalyserOutput (utils.js): the catch clause logs and
alerts the error instead of rethrowing, so the function always returns
normally to its caller. -/
def ensureAnalyserOutput (s : SysState) : SysState × List Ev :=
  match ensureAnalyserOutputBody s with
  | (s1, none) => (s1, [Ev.ensureOutput])
  | (s1, some e) =>
      ({ s1 with log := s1.log ++ ["Error ensuring analyser output:"],
                 alerts := s1.alerts ++ ["Error connecting analyser to output: " ++ e] },
       [Ev.ensureOutput])

/-- Kind of audio producer created by toneGenerator.js. -/
inductive PKind
  | osc (waveform : String) (freq : JsNum)
  | white
  | pink
deriving DecidableEq

/-- An audio source node.  `stopThrows` models a node whose stop() raises, for
example a buffer source that was already stopped externally. -/
structure Producer where
  id : ℕ
  kind : PKind
  stopThrows : Bool
deriving DecidableEq

/-- State of the toneGenerator.js module: the shared engine state, the module
variable `source`, the producers currently connected into the analyser, and an
id supply for fresh nodes. -/
structure ToneState where
  sys : SysState
  source : Option Producer
  connected : List Producer
  nextId : ℕ
deriving DecidableEq

/-- Embedding of stopTone (toneGenerator.js): when a source exists its stop()
runs inside try/catch (errors logged, never rethrown) and the finally clause
clears the reference.  Nothing is disconnected from the analyser. -/
def stopTone (s : ToneState) : ToneState × List Ev :=
  match s.source with
  | none => (s, [])
  | some p =>
      let s1 := if p.stopThrows then
          { s with sys := { s.sys with log := s.sys.log ++ ["Error stopping tone:"] } }
        else s
      ({ s1 with source := none }, [Ev.stoppedPrior p.id])

/-- Shared shape of the three producer branches of playTone: create the node,
connect it to the analyser, start it, store it in `source`. -/
def startProducer (s : ToneState) (k : PKind) : ToneState × List Ev :=
  ({ s with source := some ⟨s.nextId, k, false⟩,
            connected := s.connected ++ [⟨s.nextId, k, false⟩],
            nextId := s.nextId + 1 },
   [Ev.created s.nextId, Ev.connectedEv s.nextId, Ev.started s.nextId])

/-- The try block of playTone (toneGenerator.js): ensure the context is
active, ensure the analyser output, stop any existing tone, then validate the
parsed frequency, read the waveform and noise-type selections, build, connect
and start the producer, and finally call visualize.  `freq` is the result of
parseFloat(frequency); `wSel` and `nSel` are the checked radio inputs (`none`
models a missing selection).  Returns (state, thrown error, events). -/
def playToneBody (freq : JsNum) (wSel nSel : Option String) (s : ToneState) :
    ToneState × Option String × List Ev :=
  let r1 := ensureAudioContextActive s.sys
  let s1 : ToneState := { s with sys := r1.1 }
  match r1.2.1 with
  | some e => (s1, some e, r1.2.2)
  | none =>
    let r2 := ensureAnalyserOutput s1.sys
    let s2 : ToneState := { s1 with sys := r2.1 }
    let r3 := stopTone s2
    let s3 := r3.1
    let evs0 := r1.2.2 ++ r2.2 ++ r3.2
    if freq.isNaN || freq.le0 then
      (s3, some "Invalid frequency value. Must be a number greater than 0.", evs0)
    else
      match wSel, nSel with
      | some w, some nt =>
          if nt = "none" then
            let r4 := startProducer s3 (PKind.osc w freq)
            (r4.1, none, evs0 ++ r4.2 ++ [Ev.visualizeCalled])
          else if nt = "white" then
            let r4 := startProducer s3 PKind.white
            (r4.1, none, evs0 ++ r4.2 ++ [Ev.visualizeCalled])
          else if nt = "pink" then
            let r4 := startProducer s3 PKind.pink
            (r4.1, none, evs0 ++ r4.2 ++ [Ev.visualizeCalled])
          else
            (s3, none, evs0 ++ [Ev.visualizeCalled])
      | _, _ =>
          (s3, some "Waveform or noise type selection is missing. Please check the UI.", evs0)

/-- Embedding of playTone (toneGenerator.js): the whole body runs inside a
try/catch whose catch clause logs the error and alerts the user; no error is
ever rethrown, so the error component returned to the caller is always none. -/
def playTone (freq : JsNum) (wSel nSel : Option String) (s : ToneState) :
    ToneState × Option String × List Ev :=
  match playToneBody freq wSel nSel s with
  | (s1, none, evs) => (s1, none, evs)
  | (s1, some e, evs) =>
      ({ s1 with sys := { s1.sys with
           log := s1.sys.log ++ ["Error in playTone:"],
           alerts := s1.sys.alerts ++ ["Error playing tone: " ++ e] } },
       none, evs)

/-- State of the mp3Handler.js module: the shared engine state, the audio
element source URL (`none` models an empty src), the module flag
mediaElementSourceCreated, the module variable mp3Source (as a node id), a
count of createMediaElementSource calls on the element, the media nodes
currently connected to the analyser, the playback flag, whether
audioPlayer.play() succeeds, and an id supply. -/
structure Mp3State where
  sys : SysState
  audioSrc : Option String
  mediaElementSourceCreated : Bool
  mp3Source : Option ℕ
  bindCount : ℕ
  mediaConnected : List ℕ
  playing : Bool
  playWorks : Bool
  nextId : ℕ
deriving DecidableEq

/-- Helper for setupAudioNodes: connect mp3Source to the analyser, attempt
playback (a playback failure is caught by the inner try/catch, logged and
alerted, after which execution continues), then call visualize. -/
def connectAndPlay (s : Mp3State) (id : ℕ) : Mp3State × List Ev :=
  let s1 := { s with mediaConnected := s.mediaConnected ++ [id],
                     sys := { s.sys with
                       log := s.sys.log ++ ["Connected mp3Source to analyser"] } }
  let s2 :=
    if s1.playWorks then
      { s1 with playing := true,
                sys := { s1.sys with log := s1.sys.log ++ ["Audio playback started"] } }
    else
      { s1 with sys := { s1.sys with
          log := s1.sys.log ++ ["Error starting playback:"],
          alerts := s1.sys.alerts ++ ["Failed to play MP3:"] } }
  (s2, [Ev.connectedEv id, Ev.visualizeCalled])

/-- The try block of setupAudioNodes (mp3Handler.js): ensure the context is
active, ensure the analyser output, return early when the player has no
source; create a MediaElementSource only when none was created before,
otherwise reuse the existing one, and return early with a warning when the
flag is set but the node reference is null; then connect, play and
visualize. -/
def setupAudioNodesBody (s : Mp3State) : Mp3State × Option String × List Ev :=
  let r1 := ensureAudioContextActive s.sys
  let s1 : Mp3State := { s with sys := r1.1 }
  match r1.2.1 with
  | some e => (s1, some e, r1.2.2)
  | none =>
    let r2 := ensureAnalyserOutput s1.sys
    let s2 : Mp3State := { s1 with sys := r2.1 }
    let evs0 := r1.2.2 ++ r2.2
    match s2.audioSrc with
    | none =>
        ({ s2 with sys := { s2.sys with
             log := s2.sys.log ++ ["Audio player has no source"] } },
         none, evs0)
    | some _ =>
        if s2.mediaElementSourceCreated = false then
          let id := s2.nextId
          let s3 := { s2 with mp3Source := some id, mediaElementSourceCreated := true,
                              bindCount := s2.bindCount + 1, nextId := id + 1,
                              sys := { s2.sys with
                                log := s2.sys.log ++ ["Created new media element source"] } }
          let r4 := connectAndPlay s3 id
          (r4.1, none, evs0 ++ [Ev.created id] ++ r4.2)
        else
          match s2.mp3Source with
          | some id =>
              let r4 := connectAndPlay s2 id
              (r4.1, none, evs0 ++ r4.2)
          | none =>
              ({ s2 with sys := { s2.sys with
                   log := s2.sys.log ++ ["MediaElementSource was created but is null"] } },
               none, evs0)

/-- Embedding of setupAudioNodes (mp3Handler.js): the whole body runs inside a
try/catch whose catch clause logs and alerts; no error reaches the caller. -/
def setupAudioNodes (s : Mp3State) : Mp3State × Option String × List Ev :=
  match setupAudioNodesBody s with
  | (s1, none, evs) => (s1, none, evs)
  | (s1, some e, evs) =>
      ({ s1 with sys := { s1.sys with
           log := s1.sys.log ++ ["Error in setupAudioNodes:"],
           alerts := s1.sys.alerts ++ ["Error setting up audio nodes: " ++ e] } },
       none, evs)

/-- Embedding of stopMp3 (mp3Handler.js): when a media source exists, pause
playback, disconnect the source from the analyser (a disconnection error is
caught and logged), and clear the mp3Source reference.  The
mediaElementSourceCreated flag is left untouched. -/
def stopMp3 (s : Mp3State) : Mp3State :=
  match s.mp3Source with
  | none => s
  | some id =>
      let s1 := { s with playing := false }
      let s2 :=
        if s1.mediaConnected.contains id then
          { s1 with mediaConnected := s1.mediaConnected.filter (fun x => x ≠ id) }
        else
          { s1 with sys := { s1.sys with
              log := s1.sys.log ++ ["Error disconnecting mp3Source:"] } }
      { s2 with mp3Source := none }

/-- Embedding of clearMp3 (mp3Handler.js): clear the audio element source,
disconnect and drop the mp3Source if present (errors caught and logged), and
reset the mediaElementSourceCreated flag so that a new MediaElementSource can
be created when a new file is loaded. -/
def clearMp3 (s : Mp3State) : Mp3State :=
  let s1 := { s with audioSrc := none }
  let s2 :=
    match s1.mp3Source with
    | none => s1
    | some id =>
        let t :=
          if s1.mediaConnected.contains id then
            { s1 with mediaConnected := s1.mediaConnected.filter (fun x => x ≠ id) }
          else
            { s1 with sys := { s1.sys with
                log := s1.sys.log ++ ["Error disconnecting mp3Source:"] } }
        { t with mp3Source := none }
  { s2 with mediaElementSourceCreated := false }

/-- State of the visualizer.js module: the pending animation-frame token
(currentVisualizerAnimation; none when no frame is scheduled), a supply of
fresh tokens, and the selected visualizer type. -/
structure VizState where
  pending : Option ℕ
  nextToken : ℕ
  visualizerType : String
deriving DecidableEq

/-- Observable events of the visualization loop. -/
inductive VEv
  | canceled (tok : ℕ)
  | scheduled (tok : ℕ)
  | rendered (frame : ℕ)
  | frameError (frame : ℕ)
  | clearedCanvas
deriving DecidableEq

/-- Embedding of the draw callback loop shared by drawBarGraph,
drawKaleidoscope and drawKaleidoscopeB (visualizer.js): each invocation first
schedules the next frame with requestAnimationFrame, then renders; when
rendering throws, the catch clause cancels the frame that was just scheduled,
ending the loop.  `fails i` says whether the body of frame i throws; `fuel` is
how many callbacks the host still fires; `i` is the current frame index. -/
def drawLoop (fails : ℕ → Bool) : ℕ → ℕ → VizState → VizState × List VEv
  | 0, _, s => (s, [])
  | fuel + 1, i, s =>
      let tok := s.nextToken
      let s1 := { s with pending := some tok, nextToken := tok + 1 }
      if fails i then
        ({ s1 with pending := none },
         [VEv.scheduled tok, VEv.frameError i, VEv.canceled tok])
      else
        let r := drawLoop fails fuel (i + 1) s1
        (r.1, VEv.scheduled tok :: VEv.rendered i :: r.2)

/-- The visualizer types that start a frame loop in visualize. -/
def loopMode (m : String) : Bool :=
  m = "bar" || m = "kaleidoscope" || m = "kaleidoscope-b"

/-- Embedding of visualize (visualizer.js): first cancel any existing
animation, then dispatch on the visualizer type; bar and the two kaleidoscope
modes start the draw loop, any other type clears the canvas. -/
def visualize (fails : ℕ → Bool) (fuel : ℕ) (s : VizState) : VizState × List VEv :=
  let c :=
    match s.pending with
    | some t => (({ s with pending := none } : VizState), [VEv.canceled t])
    | none => (s, ([] : List VEv))
  if loopMode c.1.visualizerType then
    let r := drawLoop fails fuel 0 c.1
    (r.1, c.2 ++ r.2)
  else
    (c.1, c.2 ++ [VEv.clearedCanvas])

/-- Embedding of the buffer fill loop of createWhiteNoise (toneGenerator.js):
the buffer holds 2 * sampleRate samples and sample i is
Math.random() * 2 - 1, with Math.random() modelled by the stream rand. -/
def createWhiteNoiseBuffer (sampleRate : ℕ) (rand : ℕ → ℚ) : List ℚ :=
  (List.range (2 * sampleRate)).map (fun i => rand i * 2 - 1)

/-- Filter state of the pink-noise loop: the variables b0..b6 declared at the
top of createPinkNoise (b6 is declared and zero-initialised but never used). -/
structure PinkState where
  b0 : ℚ
  b1 : ℚ
  b2 : ℚ
  b3 : ℚ
  b4 : ℚ
  b5 : ℚ
  b6 : ℚ
deriving DecidableEq

/-- The all-zero initial filter state of createPinkNoise. -/
def pinkZero : PinkState := ⟨0, 0, 0, 0, 0, 0, 0⟩

/-- One iteration of the createPinkNoise loop body (toneGenerator.js): update
b0..b5 from the fresh white sample with the Kellet coefficients, then emit
output[i] = b0 + b1 + b2 + b3 + b4 + b5 + white * 0.5362 followed by
output[i] *= 0.11. -/
def pinkStep (st : PinkState) (white : ℚ) : PinkState × ℚ :=
  let b0 := 0.99886 * st.b0 + white * 0.0555179
  let b1 := 0.99332 * st.b1 + white * 0.0750759
  let b2 := 0.96900 * st.b2 + white * 0.1538520
  let b3 := 0.86650 * st.b3 + white * 0.3104856
  let b4 := 0.55000 * st.b4 + white * 0.5329522
  let b5 := -0.7616 * st.b5 - white * 0.0168980
  (⟨b0, b1, b2, b3, b4, b5, st.b6⟩,
   (b0 + b1 + b2 + b3 + b4 + b5 + white * 0.5362) * 0.11)

/-- The fill loop of createPinkNoise: n remaining samples, current index i,
current filter state. -/
def pinkLoop (rand : ℕ → ℚ) : ℕ → ℕ → PinkState → List ℚ
  | 0, _, _ => []
  | n + 1, i, st =>
      let white := rand i * 2 - 1
      let r := pinkStep st white
      r.2 :: pinkLoop rand n (i + 1) r.1

/-- Embedding of the buffer fill loop of createPinkNoise (toneGenerator.js):
b0..b6 are initialised to zero at the start of every call, then the loop runs
over the 2 * sampleRate samples. -/
def createPinkNoiseBuffer (sampleRate : ℕ) (rand : ℕ → ℚ) : List ℚ :=
  pinkLoop rand (2 * sampleRate) 0 pinkZero

/-- Written from the spec wording (section 4.2): the running state variables
b0..b5 after n white samples, starting at zero on each generation call, each
updated with its fixed coefficient pair from the list 0.99886 with 0.0555179,
0.99332 with 0.0750759, 0.96900 with 0.1538520, 0.86650 with 0.3104856,
0.55000 with 0.5329522, and -0.7616 with -0.0168980. -/
def specPinkStateAt (rand : ℕ → ℚ) : ℕ → ℚ × ℚ × ℚ × ℚ × ℚ × ℚ
  | 0 => (0, 0, 0, 0, 0, 0)
  | n + 1 =>
      let w := rand n * 2 - 1
      let p := specPinkStateAt rand n
      (0.99886 * p.1 + 0.0555179 * w,
       0.99332 * p.2.1 + 0.0750759 * w,
       0.96900 * p.2.2.1 + 0.1538520 * w,
       0.86650 * p.2.2.2.1 + 0.3104856 * w,
       0.55000 * p.2.2.2.2.1 + 0.5329522 * w,
       -0.7616 * p.2.2.2.2.2 - 0.0168980 * w)

/-- Written from the spec wording (section 4.2): the n-th pink sample is the
sum of the six updated state variables plus the direct white term with weight
0.5362, scaled by 0.11. -/
def specPinkSample (rand : ℕ → ℚ) (n : ℕ) : ℚ :=
  let w := rand n * 2 - 1
  let p := specPinkStateAt rand (n + 1)
  0.11 * (p.1 + p.2.1 + p.2.2.1 + p.2.2.2.1 + p.2.2.2.2.1 + p.2.2.2.2.2 + 0.5362 * w)

/-- A healthy running engine with an empty log and no alerts. -/
def sys0 : SysState := ⟨CtxState.running, true, true, false, [], []⟩

/-- Tone module state over a healthy engine with nothing playing. -/
def tone0 : ToneState := ⟨sys0, none, [], 0⟩

/-- The part of the pink filter state the spec talks about: b0..b5. -/
def pinkTuple (st : PinkState) : ℚ × ℚ × ℚ × ℚ × ℚ × ℚ :=
  (st.b0, st.b1, st.b2, st.b3, st.b4, st.b5)

/-- C6: createWhiteNoise generates a buffer whose length equals exactly
2 * sampleRate and in which every sample, obtained as r * 2 - 1 from an
independent uniform draw r in the interval from 0 inclusive to 1 exclusive,
lies in the interval [-1, 1]. -/
theorem createWhiteNoise_length_and_bounds (sampleRate : ℕ) (rand : ℕ → ℚ)
    (hr : ∀ i, 0 ≤ rand i ∧ rand i < 1) :
    (createWhiteNoiseBuffer sampleRate rand).length = 2 * sampleRate ∧
    ∀ x ∈ createWhiteNoiseBuffer sampleRate rand, -1 ≤ x ∧ x ≤ 1 := by
  constructor
  · simp [createWhiteNoiseBuffer]
  · intro x hx
    simp only [createWhiteNoiseBuffer, List.mem_map, List.mem_range] at hx
    obtain ⟨i, _, rfl⟩ := hx
    have h := hr i
    constructor <;> linarith [h.1, h.2]

/-- Witness for C6 at sampleRate 2 and a constant draw of one half. -/
theorem createWhiteNoise_length_and_bounds_witness :
    (createWhiteNoiseBuffer 2 (fun _ => 1 / 2)).length = 2 * 2 ∧
    ∀ x ∈ createWhiteNoiseBuffer 2 (fun _ => 1 / 2), -1 ≤ x ∧ x ≤ 1 :=
  createWhiteNoise_length_and_bounds 2 (fun _ => 1 / 2) (fun _ => by norm_num)

/-- The pink loop started from a state agreeing with the spec filter state at
index i produces exactly the spec samples from index i on. -/
theorem pinkLoop_eq_spec (rand : ℕ → ℚ) :
    ∀ (n i : ℕ) (st : PinkState), pinkTuple st = specPinkStateAt rand i →
      pinkLoop rand n i st = (List.range' i n).map (specPinkSample rand) := by
  intro n
  induction n with
  | zero => intro i st _; simp [pinkLoop]
  | succ n ih =>
      intro i st h
      simp only [pinkTuple, Prod.ext_iff] at h
      obtain ⟨e0, e1, e2, e3, e4, e5⟩ := h
      have h2 : pinkTuple (pinkStep st (rand i * 2 - 1)).1 = specPinkStateAt rand (i + 1) := by
        simp only [pinkTuple, pinkStep, specPinkStateAt, Prod.ext_iff]
        refine ⟨?_, ?_, ?_, ?_, ?_, ?_⟩ <;> simp only [e0, e1, e2, e3, e4, e5] <;> ring
      have hhead : (pinkStep st (rand i * 2 - 1)).2 = specPinkSample rand i := by
        simp only [pinkStep, specPinkSample, specPinkStateAt]
        simp only [e0, e1, e2, e3, e4, e5]; ring
      rw [List.range'_succ]
      simp only [pinkLoop, List.map_cons]
      rw [hhead, ih (i + 1) _ h2]

/-- C7: createPinkNoise computes every sample of its 2 * sampleRate buffer by
the six-pole Kellet filter with the fixed coefficient pairs of the spec
applied to state variables b0..b5, adds the direct white term with weight
0.5362, scales by 0.11, and the filter state starts at zero on each call and
is never shared between calls: the buffer coincides with the spec-side
per-call recurrence started from the all-zero state. -/
theorem createPinkNoise_implements_kellet (sampleRate : ℕ) (rand : ℕ → ℚ) :
    createPinkNoiseBuffer sampleRate rand =
      (List.range (2 * sampleRate)).map (specPinkSample rand) ∧
    (createPinkNoiseBuffer sampleRate rand).length = 2 * sampleRate := by
  have h := pinkLoop_eq_spec rand (2 * sampleRate) 0 pinkZero
      (by simp [pinkTuple, pinkZero, specPinkStateAt])
  have hmain : createPinkNoiseBuffer sampleRate rand =
      (List.range (2 * sampleRate)).map (specPinkSample rand) := by
    rw [createPinkNoiseBuffer, h, List.range_eq_range']
  exact ⟨hmain, by rw [hmain]; simp⟩

/-- C2 (amended): stopTone is idempotent and a no-op when no producer is
active; otherwise it halts the active producer, swallowing and logging any
teardown error, clears the reference and transitions to idle — but it does not
disconnect the producer from the analysis node: the producer-to-analyser
connection survives the stop. -/
theorem stopTone_idempotent_no_disconnect (s : ToneState) :
    (s.source = none → stopTone s = (s, [])) ∧
    (∀ p, s.source = some p →
       (stopTone s).1.source = none ∧
       (stopTone s).1.connected = s.connected ∧
       (p.stopThrows = true →
         (stopTone s).1.sys.log = s.sys.log ++ ["Error stopping tone:"])) ∧
    stopTone (stopTone s).1 = ((stopTone s).1, []) := by
  rcases s with ⟨sys, src, conn, nid⟩
  cases src with
  | none => simp [stopTone]
  | some p =>
      refine ⟨by simp, ?_, ?_⟩
      · intro q hq
        simp only [Option.some.injEq] at hq
        subst hq
        by_cases hb : p.stopThrows <;> simp [stopTone, hb]
      · by_cases hb : p.stopThrows <;> simp [stopTone, hb]

/-- Witness for C2 at a state with an active producer whose stop raises. -/
theorem stopTone_idempotent_no_disconnect_witness :
    (stopTone ⟨sys0, some ⟨3, PKind.white, true⟩, [⟨3, PKind.white, true⟩], 4⟩).1.source
        = none ∧
    (stopTone ⟨sys0, some ⟨3, PKind.white, true⟩, [⟨3, PKind.white, true⟩], 4⟩).1.connected
        = [⟨3, PKind.white, true⟩] ∧
    (stopTone ⟨sys0, some ⟨3, PKind.white, true⟩, [⟨3, PKind.white, true⟩], 4⟩).1.sys.log
        = sys0.log ++ ["Error stopping tone:"] := by
  have h := (stopTone_idempotent_no_disconnect
      ⟨sys0, some ⟨3, PKind.white, true⟩, [⟨3, PKind.white, true⟩], 4⟩).2.1
      ⟨3, PKind.white, true⟩ rfl
  exact ⟨h.1, h.2.1, h.2.2 rfl⟩

/-- C2 counterexample: activateTone at the valid frequency 440 followed
immediately by stopTone leaves the state idle, but the oscillator is still
connected to the analyser — the producer-to-analyser connection is not
removed. -/
theorem stopTone_leaves_connection :
    ((stopTone (playTone (JsNum.finite 440) (some "sine") (some "none") tone0).1).1.source
        = none) ∧
    ((stopTone (playTone (JsNum.finite 440) (some "sine") (some "none") tone0).1).1.connected
        ≠ []) := by
  decide

/-- The invalid-frequency message thrown by playTone. -/
def invalidFreqMsg : String := "Invalid frequency value. Must be a number greater than 0."

/-- Events that mutate the audio graph by creating or connecting a producer. -/
def isGraphEv : Ev → Bool
  | .created _ => true
  | .connectedEv _ => true
  | _ => false

/-- Trace discipline of the graph operations: the trace either literally
starts with the ensureActive call followed by the ensureOutput call, or it
contains no create/connect event at all. -/
def ensuresPrecedeGraph : List Ev → Bool
  | Ev.ensureActive :: Ev.ensureOutput :: _ => true
  | t => t.all (fun e => !isGraphEv e)

/-- ensureAudioContextActive always emits exactly its own call event. -/
theorem ensureActive_trace (s : SysState) :
    (ensureAudioContextActive s).2.2 = [Ev.ensureActive] := by
  unfold ensureAudioContextActive
  split
  · split <;> rfl
  · rfl

/-- ensureAnalyserOutput always emits exactly its own call event. -/
theorem ensureOutput_trace (s : SysState) :
    (ensureAnalyserOutput s).2 = [Ev.ensureOutput] := by
  unfold ensureAnalyserOutput
  split <;> rfl

/-- The playTone wrapper returns the trace of its body unchanged. -/
theorem playTone_trace (freq : JsNum) (wSel nSel : Option String) (s : ToneState) :
    (playTone freq wSel nSel s).2.2 = (playToneBody freq wSel nSel s).2.2 := by
  rcases h : playToneBody freq wSel nSel s with ⟨s1, err, evs⟩
  cases err <;> simp [playTone, h]

/-- The setupAudioNodes wrapper returns the trace of its body unchanged. -/
theorem setupAudioNodes_trace (s : Mp3State) :
    (setupAudioNodes s).2.2 = (setupAudioNodesBody s).2.2 := by
  rcases h : setupAudioNodesBody s with ⟨s1, err, evs⟩
  cases err <;> simp [setupAudioNodes, h]

/-- Trace discipline of the playTone body. -/
theorem playToneBody_checker (freq : JsNum) (wSel nSel : Option String) (s : ToneState) :
    ensuresPrecedeGraph (playToneBody freq wSel nSel s).2.2 = true := by
  unfold playToneBody
  rcases hr : ensureAudioContextActive s.sys with ⟨sys1, err, tr⟩
  have htr : tr = [Ev.ensureActive] := by
    have h := ensureActive_trace s.sys; rw [hr] at h; exact h
  subst htr
  cases err with
  | some e => simp [ensuresPrecedeGraph, isGraphEv]
  | none =>
      rcases ho : ensureAnalyserOutput sys1 with ⟨sys2, tr2⟩
      have htr2 : tr2 = [Ev.ensureOutput] := by
        have h := ensureOutput_trace sys1; rw [ho] at h; exact h
      subst htr2
      simp only [ho]
      repeat' split
      all_goals simp [ensuresPrecedeGraph, isGraphEv]

/-- Trace discipline of the setupAudioNodes body. -/
theorem setupAudioNodesBody_checker (s : Mp3State) :
    ensuresPrecedeGraph (setupAudioNodesBody s).2.2 = true := by
  unfold setupAudioNodesBody
  rcases hr : ensureAudioContextActive s.sys with ⟨sys1, err, tr⟩
  have htr : tr = [Ev.ensureActive] := by
    have h := ensureActive_trace s.sys; rw [hr] at h; exact h
  subst htr
  cases err with
  | some e => simp [ensuresPrecedeGraph, isGraphEv]
  | none =>
      rcases ho : ensureAnalyserOutput sys1 with ⟨sys2, tr2⟩
      have htr2 : tr2 = [Ev.ensureOutput] := by
        have h := ensureOutput_trace sys1; rw [ho] at h; exact h
      subst htr2
      simp only [ho]
      repeat' split
      all_goals simp [ensuresPrecedeGraph, isGraphEv, connectAndPlay]

/-- C4: every graph-touching operation — tone and noise activation in playTone
and media activation in setupAudioNodes — calls ensureAudioContextActive and
then ensureAnalyserOutput, in that order, before any producer is created or
connected to the analysis node: every emitted trace either begins with the two
ensure calls in that order, or contains no create/connect event at all (the
resume-failure abort, which mutates no graph state). -/
theorem graph_ops_follow_ensures :
    (∀ (freq : JsNum) (wSel nSel : Option String) (s : ToneState),
        ensuresPrecedeGraph (playTone freq wSel nSel s).2.2 = true) ∧
    (∀ s : Mp3State, ensuresPrecedeGraph (setupAudioNodes s).2.2 = true) := by
  constructor
  · intro freq wSel nSel s
    rw [playTone_trace]
    exact playToneBody_checker freq wSel nSel s
  · intro s
    rw [setupAudioNodes_trace]
    exact setupAudioNodesBody_checker s

/-- A producer that is playing before the faulty activation. -/
def pPrior : Producer := ⟨7, PKind.osc "sine" (JsNum.finite 440), false⟩

/-- Tone module state with pPrior playing and connected. -/
def tonePlaying : ToneState := ⟨sys0, some pPrior, [pPrior], 8⟩

/-- C1 counterexample: calling playTone with the invalid frequency -1 while
pPrior is playing clears the source — the prior producer is stopped, so the
failed activation does not leave the prior state untouched; moreover at the
non-finite frequency +infinity the invalid-parameter alert is not raised at
all, because the validation only rejects NaN and nonpositive values. -/
theorem invalid_freq_stops_prior :
    tonePlaying.source = some pPrior ∧
    (playTone (JsNum.finite (-1)) (some "sine") (some "none") tonePlaying).1.source = none ∧
    ("Error playing tone: " ++ invalidFreqMsg) ∉
      (playTone JsNum.posInf (some "sine") (some "none") tone0).1.sys.alerts := by
  decide

/-- C1 (amended): when the parsed frequency is NaN or nonpositive (this covers
negative infinity, while positive infinity is not rejected by the validation),
playTone reports InvalidParameter via alert and is caught internally: no
producer is created or connected — but the prior state is not untouched, since
stopTone has already run: a previously playing producer has been stopped and
the module is left idle. -/
theorem invalid_freq_rejected_after_stop (freq : JsNum) (wSel nSel : Option String)
    (s : ToneState)
    (hres : ¬(s.sys.ctx = CtxState.suspended ∧ s.sys.resumeWorks = false))
    (hbad : (freq.isNaN || freq.le0) = true) :
    (playTone freq wSel nSel s).1.source = none ∧
    (playTone freq wSel nSel s).1.connected = s.connected ∧
    (playTone freq wSel nSel s).1.nextId = s.nextId ∧
    (playTone freq wSel nSel s).2.1 = none ∧
    ("Error playing tone: " ++ invalidFreqMsg) ∈ (playTone freq wSel nSel s).1.sys.alerts ∧
    (∀ p, s.source = some p →
       Ev.stoppedPrior p.id ∈ (playTone freq wSel nSel s).2.2) := by
  rcases s with ⟨⟨ctx, rwk, ap, al, lg, ar⟩, src, conn, nid⟩
  cases ctx <;> cases rwk <;> cases ap <;>
    [skip; skip; skip; skip; exact absurd ⟨rfl, rfl⟩ hres;
     exact absurd ⟨rfl, rfl⟩ hres; skip; skip; skip; skip; skip; skip] <;>
    cases src <;>
    simp [playTone, playToneBody, ensureAudioContextActive, ensureAnalyserOutput,
      ensureAnalyserOutputBody, stopTone, hbad, invalidFreqMsg] <;>
    split <;> simp

/-- Witness for C1 at frequency -1 with pPrior playing. -/
theorem invalid_freq_rejected_after_stop_witness :
    (playTone (JsNum.finite (-1)) (some "sine") (some "none") tonePlaying).1.source = none ∧
    (playTone (JsNum.finite (-1)) (some "sine") (some "none") tonePlaying).1.connected
        = tonePlaying.connected ∧
    Ev.stoppedPrior pPrior.id ∈
      (playTone (JsNum.finite (-1)) (some "sine") (some "none") tonePlaying).2.2 := by
  have h := invalid_freq_rejected_after_stop (JsNum.finite (-1)) (some "sine") (some "none")
      tonePlaying (by decide) (by decide)
  exact ⟨h.1, h.2.1, h.2.2.2.2.2 pPrior rfl⟩

/-- In every ToneState the result of stopTone has no active source. -/
theorem stopTone_source_none (t : ToneState) : (stopTone t).1.source = none := by
  rcases t with ⟨sys, src, conn, nid⟩
  cases src with
  | none => rfl
  | some p => by_cases hb : p.stopThrows <;> simp [stopTone, hb]

/-- When the body of playTone throws, the state it hands to the catch clause
is idle (errors after the stop step) or has the same source as the initial
state (resume failure before it) — never a partially active producer. -/
theorem playToneBody_throw_source (freq : JsNum) (wSel nSel : Option String)
    (s s1 : ToneState) (e : String) (evs : List Ev)
    (heq : playToneBody freq wSel nSel s = (s1, some e, evs)) :
    s1.source = none ∨ s1.source = s.source := by
  unfold playToneBody at heq
  rcases hr : ensureAudioContextActive s.sys with ⟨sys1, err, tr⟩
  rw [hr] at heq
  cases err with
  | some e1 =>
      dsimp only at heq
      simp only [Prod.mk.injEq] at heq
      right
      rw [← heq.1]
  | none =>
      dsimp only at heq
      repeat' split at heq
      all_goals
        first
        | (simp only [Prod.mk.injEq] at heq
           left
           rw [← heq.1]
           exact stopTone_source_none _)
        | simp at heq

/-- C3 counterexample: at the concrete invalid frequency 0 the activation path
throws the invalid-parameter error inside playTone, yet the caller of playTone
receives no error — the error does not propagate. -/
theorem activation_error_not_propagated :
    (playToneBody (JsNum.finite 0) (some "sine") (some "none") tone0).2.1
        = some invalidFreqMsg ∧
    (playTone (JsNum.finite 0) (some "sine") (some "none") tone0).2.1 = none := by
  decide

/-- C3 (amended): every error arising on the activation path of playTone is
caught by its internal try/catch and never propagates to the caller; the
handler logs the error and alerts the user with the underlying message, and
the state at that point is idle (for errors thrown after the stop step) or has
its source unchanged (resume failure), never partially active. -/
theorem playTone_never_throws (freq : JsNum) (wSel nSel : Option String) (s : ToneState) :
    (playTone freq wSel nSel s).2.1 = none ∧
    (∀ s1 e evs, playToneBody freq wSel nSel s = (s1, some e, evs) →
       (playTone freq wSel nSel s).1.sys.alerts
           = s1.sys.alerts ++ ["Error playing tone: " ++ e] ∧
       (playTone freq wSel nSel s).1.source = s1.source ∧
       (s1.source = none ∨ s1.source = s.source)) := by
  constructor
  · rcases hb : playToneBody freq wSel nSel s with ⟨s1, err, evs⟩
    cases err <;> simp [playTone, hb]
  · intro s1 e evs heq
    refine ⟨?_, ?_, playToneBody_throw_source freq wSel nSel s s1 e evs heq⟩ <;>
      simp [playTone, heq]

/-- Witness for C3 at the concrete invalid frequency 0. -/
theorem playTone_never_throws_witness :
    (playTone (JsNum.finite 0) (some "sine") (some "none") tone0).2.1 = none ∧
    (playTone (JsNum.finite 0) (some "sine") (some "none") tone0).1.source = none := by
  have h := playTone_never_throws (JsNum.finite 0) (some "sine") (some "none") tone0
  have h2 := h.2 (playToneBody (JsNum.finite 0) (some "sine") (some "none") tone0).1
      invalidFreqMsg
      (playToneBody (JsNum.finite 0) (some "sine") (some "none") tone0).2.2
      (by decide)
  refine ⟨h.1, ?_⟩
  rw [h2.2.1]
  decide

/-- A loaded, not-yet-bound media state over a healthy engine. -/
def mp3A : Mp3State := ⟨sys0, some "song.mp3", false, none, 0, [], false, true, 0⟩

/-- C5: a given media element is wrapped into a connectable producer at most
once between resets: the first setupAudioNodes call on an unbound element
creates the single MediaElementSource, a second call on the same un-reset
element reuses the existing binding (no new source, no thrown error — in
particular no SourceAlreadyBound), and after clearMp3 the flag is reset so the
next activation on a newly loaded source creates a fresh binding. -/
theorem setupAudioNodes_creates (s : Mp3State) (u : String)
    (hres : ¬(s.sys.ctx = CtxState.suspended ∧ s.sys.resumeWorks = false))
    (hsrc : s.audioSrc = some u) (hc : s.mediaElementSourceCreated = false) :
    (setupAudioNodes s).1.bindCount = s.bindCount + 1 ∧
    (setupAudioNodes s).1.mediaElementSourceCreated = true ∧
    (setupAudioNodes s).1.mp3Source = some s.nextId ∧
    (setupAudioNodes s).2.1 = none := by
  rcases s with ⟨⟨ctx, rwk, ap, al, lg, ar⟩, asrc, created, msrc, bc, mc, pl, pw, nid⟩
  simp only at hsrc hc
  subst hsrc
  subst hc
  cases ctx <;> cases rwk <;> cases ap <;> cases pw <;>
    simp [setupAudioNodes, setupAudioNodesBody, ensureAudioContextActive,
      ensureAnalyserOutput, ensureAnalyserOutputBody, connectAndPlay] <;>
    simp_all

/-- Fields of the cleared media state: the binding flag is reset while the
bind count and the engine activation fields are untouched. -/
theorem clearMp3_fields (s : Mp3State) :
    (clearMp3 s).mediaElementSourceCreated = false ∧
    (clearMp3 s).bindCount = s.bindCount ∧
    (clearMp3 s).sys.ctx = s.sys.ctx ∧
    (clearMp3 s).sys.resumeWorks = s.sys.resumeWorks := by
  rcases s with ⟨sys, asrc, created, msrc, bc, mc, pl, pw, nid⟩
  cases msrc <;> refine ⟨?_, ?_, ?_, ?_⟩ <;> simp only [clearMp3] <;> (try split) <;> rfl

/-- C5: a given media element is wrapped into a connectable producer at most
once between resets: the first setupAudioNodes call on an unbound element
creates the single MediaElementSource, a second call on the same un-reset
element reuses the existing binding (no new source, no thrown error — in
particular no SourceAlreadyBound), and after clearMp3 the flag is reset so the
next activation on a newly loaded source creates a fresh binding. -/
theorem media_bound_once (s : Mp3State) (u : String)
    (hres : ¬(s.sys.ctx = CtxState.suspended ∧ s.sys.resumeWorks = false))
    (hsrc : s.audioSrc = some u) :
    (s.mediaElementSourceCreated = false →
       (setupAudioNodes s).1.bindCount = s.bindCount + 1 ∧
       (setupAudioNodes s).1.mediaElementSourceCreated = true ∧
       (setupAudioNodes s).1.mp3Source = some s.nextId ∧
       (setupAudioNodes s).2.1 = none) ∧
    (∀ id, s.mediaElementSourceCreated = true → s.mp3Source = some id →
       (setupAudioNodes s).1.bindCount = s.bindCount ∧
       (setupAudioNodes s).1.mp3Source = some id ∧
       (setupAudioNodes s).2.1 = none) ∧
    ((clearMp3 s).mediaElementSourceCreated = false) ∧
    (∀ v, (setupAudioNodes { clearMp3 s with audioSrc := some v }).1.bindCount
        = s.bindCount + 1) := by
  refine ⟨fun hc => setupAudioNodes_creates s u hres hsrc hc, ?_, (clearMp3_fields s).1, ?_⟩
  · intro id hc hm
    rcases s with ⟨⟨ctx, rwk, ap, al, lg, ar⟩, asrc, created, msrc, bc, mc, pl, pw, nid⟩
    simp only at hc hm hsrc
    subst hsrc
    subst hc
    subst hm
    cases ctx <;> cases rwk <;> cases ap <;> cases pw <;>
      simp [setupAudioNodes, setupAudioNodesBody, ensureAudioContextActive,
        ensureAnalyserOutput, ensureAnalyserOutputBody, connectAndPlay]
  · intro v
    have h := clearMp3_fields s
    have hres2 : ¬(({ clearMp3 s with audioSrc := some v } : Mp3State).sys.ctx
          = CtxState.suspended ∧
        ({ clearMp3 s with audioSrc := some v } : Mp3State).sys.resumeWorks = false) := by
      intro hcontra
      refine hres ⟨?_, ?_⟩
      · rw [← h.2.2.1]; exact hcontra.1
      · rw [← h.2.2.2]; exact hcontra.2
    have hc := setupAudioNodes_creates { clearMp3 s with audioSrc := some v } v hres2 rfl h.1
    rw [hc.1]
    show (clearMp3 s).bindCount + 1 = s.bindCount + 1
    rw [h.2.1]

/-- Witness for C5: binding once, reusing on the second call. -/
theorem media_bound_once_witness :
    (setupAudioNodes mp3A).1.bindCount = mp3A.bindCount + 1 ∧
    (setupAudioNodes mp3A).1.mediaElementSourceCreated = true ∧
    (clearMp3 mp3A).mediaElementSourceCreated = false := by
  have h := media_bound_once mp3A "song.mp3" (by decide) rfl
  exact ⟨(h.1 rfl).1, (h.1 rfl).2.1, h.2.2.1⟩

/-- Media state after a stopMp3: binding flag set but the node reference null. -/
def mp3Stale : Mp3State := ⟨sys0, some "song.mp3", true, none, 1, [], false, true, 1⟩

/-- C10: in every state where mediaElementSourceCreated is true but mp3Source
is null — the state stopMp3 leaves behind after stopping an active media
source — a subsequent setupAudioNodes call on the same loaded element over a
healthy engine returns early: it connects nothing to the analyser, does not
start playback, and raises no error (no throw and no alert). -/
theorem stale_binding_early_return (s : Mp3State) (u : String)
    (hres : ¬(s.sys.ctx = CtxState.suspended ∧ s.sys.resumeWorks = false))
    (hap : s.sys.analyserPresent = true) (hcl : s.sys.ctx ≠ CtxState.closed)
    (hsrc : s.audioSrc = some u)
    (hcr : s.mediaElementSourceCreated = true) (hnull : s.mp3Source = none) :
    (setupAudioNodes s).1.mediaConnected = s.mediaConnected ∧
    (setupAudioNodes s).1.playing = s.playing ∧
    (setupAudioNodes s).2.1 = none ∧
    (setupAudioNodes s).1.sys.alerts = s.sys.alerts ∧
    (∀ (t : Mp3State) (id : ℕ), t.mp3Source = some id →
       (stopMp3 t).mp3Source = none ∧
       (stopMp3 t).mediaElementSourceCreated = t.mediaElementSourceCreated ∧
       (stopMp3 t).audioSrc = t.audioSrc) := by
  rcases s with ⟨⟨ctx, rwk, ap, al, lg, ar⟩, asrc, created, msrc, bc, mc, pl, pw, nid⟩
  simp only at hsrc hcr hnull hap hcl
  subst hsrc
  subst hcr
  subst hnull
  subst hap
  refine ⟨?_, ?_, ?_, ?_, ?_⟩
  all_goals
    try (cases ctx <;> cases rwk <;>
          simp [setupAudioNodes, setupAudioNodesBody, ensureAudioContextActive,
            ensureAnalyserOutput, ensureAnalyserOutputBody] <;>
          simp_all)
  intro t id hm
  rcases t with ⟨tsys, tsrc, tcreated, tmsrc, tbc, tmc, tpl, tpw, tnid⟩
  simp only at hm
  subst hm
  refine ⟨?_, ?_, ?_⟩ <;> simp only [stopMp3] <;> (try split) <;> rfl

/-- Witness for C10 at the concrete stale state. -/
theorem stale_binding_early_return_witness :
    (setupAudioNodes mp3Stale).1.mediaConnected = mp3Stale.mediaConnected ∧
    (setupAudioNodes mp3Stale).1.playing = mp3Stale.playing ∧
    (setupAudioNodes mp3Stale).2.1 = none ∧
    (setupAudioNodes mp3Stale).1.sys.alerts = mp3Stale.sys.alerts := by
  have h := stale_binding_early_return mp3Stale "song.mp3" (by decide) rfl (by decide)
      rfl rfl rfl
  exact ⟨h.1, h.2.1, h.2.2.1, h.2.2.2.1⟩

/-- An engine whose context has been closed. -/
def sysClosed : SysState := ⟨CtxState.closed, true, true, false, [], []⟩

/-- Tone module state over the closed engine. -/
def toneClosed : ToneState := ⟨sysClosed, none, [], 0⟩

/-- C9 counterexample: with the engine context closed, ensureAnalyserOutput
detects the EngineClosed condition internally, yet nothing is raised to its
caller: playTone continues past it, returns no error, and even creates and
starts a new producer on the closed engine. -/
theorem engine_closed_not_raised :
    (ensureAnalyserOutputBody sysClosed).2 = some "Analyser node is invalid or closed." ∧
    (playTone (JsNum.finite 440) (some "sine") (some "none") toneClosed).2.1 = none ∧
    (playTone (JsNum.finite 440) (some "sine") (some "none") toneClosed).1.source
        = some ⟨0, PKind.osc "sine" (JsNum.finite 440), false⟩ := by
  decide

/-- C9 (amended): ensureAnalyserOutput is idempotent — repeated calls leave
the graph fields exactly as one call does, and on a healthy engine each call
(re)connects the analyser to the destination; when the context is closed or
the analyser is absent the EngineClosed condition is detected by the try
block, but the catch clause logs and alerts it instead of raising it to the
caller, which proceeds normally. -/
theorem ensureAnalyserOutput_swallows_engine_closed (s : SysState) :
    ((ensureAnalyserOutput (ensureAnalyserOutput s).1).1.ctx
        = (ensureAnalyserOutput s).1.ctx ∧
     (ensureAnalyserOutput (ensureAnalyserOutput s).1).1.analyserPresent
        = (ensureAnalyserOutput s).1.analyserPresent ∧
     (ensureAnalyserOutput (ensureAnalyserOutput s).1).1.analyserLinked
        = (ensureAnalyserOutput s).1.analyserLinked) ∧
    (s.analyserPresent = true → s.ctx ≠ CtxState.closed →
       (ensureAnalyserOutput s).1.analyserLinked = true) ∧
    ((s.analyserPresent = false ∨ s.ctx = CtxState.closed) →
       (ensureAnalyserOutputBody s).2 = some "Analyser node is invalid or closed." ∧
       (ensureAnalyserOutput s).1.analyserLinked = s.analyserLinked ∧
       (ensureAnalyserOutput s).1.ctx = s.ctx ∧
       (ensureAnalyserOutput s).1.alerts = s.alerts ++
         ["Error connecting analyser to output: Analyser node is invalid or closed."]) := by
  rcases s with ⟨ctx, rwk, ap, al, lg, ar⟩
  cases ctx <;> cases ap <;>
    simp [ensureAnalyserOutput, ensureAnalyserOutputBody]

/-- Witness for C9: the swallowed failure on the closed engine and the
reconnection on the healthy one. -/
theorem ensureAnalyserOutput_swallows_witness :
    (ensureAnalyserOutputBody sysClosed).2 = some "Analyser node is invalid or closed." ∧
    (ensureAnalyserOutput sysClosed).1.alerts = sysClosed.alerts ++
      ["Error connecting analyser to output: Analyser node is invalid or closed."] ∧
    (ensureAnalyserOutput sys0).1.analyserLinked = true := by
  have h := ensureAnalyserOutput_swallows_engine_closed sysClosed
  have h0 := ensureAnalyserOutput_swallows_engine_closed sys0
  have h3 := h.2.2 (Or.inr rfl)
  exact ⟨h3.1, h3.2.2.2, h0.2.1 rfl (by decide)⟩

/-- First-failure property of the draw loop: when frame i + n is the first
failing frame and the host fires enough callbacks to reach it, the loop ends
with no pending frame and never renders a frame at or beyond the failing
one. -/
theorem drawLoop_halts_after_failure (fails : ℕ → Bool) :
    ∀ (n fuel i : ℕ) (s : VizState), fails (i + n) = true →
      (∀ m, m < n → fails (i + m) = false) → n < fuel →
      (drawLoop fails fuel i s).1.pending = none ∧
      (∀ j, VEv.rendered j ∈ (drawLoop fails fuel i s).2 → j < i + n) := by
  intro n
  induction n with
  | zero =>
      intro fuel i s hf _ hfuel
      match fuel, hfuel with
      | f + 1, _ =>
          simp only [Nat.add_zero] at hf
          simp [drawLoop, hf]
  | succ n ih =>
      intro fuel i s hf hfirst hfuel
      match fuel, hfuel with
      | f + 1, hfuel =>
          have h0 : fails i = false := by
            have hh := hfirst 0 (Nat.succ_pos n)
            simpa using hh
          have hf2 : fails (i + 1 + n) = true := by
            have he : i + 1 + n = i + (n + 1) := by omega
            rw [he]; exact hf
          have hfirst2 : ∀ m, m < n → fails (i + 1 + m) = false := by
            intro m hm
            have he : i + 1 + m = i + (m + 1) := by omega
            rw [he]; exact hfirst (m + 1) (by omega)
          have hrec := ih f (i + 1)
              { s with pending := some s.nextToken, nextToken := s.nextToken + 1 }
              hf2 hfirst2 (by omega)
          constructor
          · simp only [drawLoop, h0]
            exact hrec.1
          · intro j hj
            simp only [drawLoop, h0, Bool.false_eq_true, if_false, List.mem_cons] at hj
            rcases hj with hj | hj | hj
            · exact absurd hj (by simp)
            · have : j = i := by injection hj
              omega
            · have := hrec.2 j hj
              omega

/-- C8: every call to visualize — in any mode and whether or not a frame ever
fails — first cancels any in-flight frame loop before starting a new one: the
canceled event of the old token is the very first event of the call.  In every
loop mode (bar and both kaleidoscopes), a rendering failure during any single
frame cancels the loop: the frame scheduled at the top of the failing callback
is canceled, no pending frame remains and no frame at or beyond the failing
one is ever rendered.  In every non-loop mode the canvas is cleared, nothing
stays scheduled and no frame is rendered at all. -/
theorem visualize_cancels_then_halts_on_failure (fails : ℕ → Bool) (fuel : ℕ)
    (s : VizState) :
    (∀ t, s.pending = some t →
       (visualize fails fuel s).2.head? = some (VEv.canceled t)) ∧
    (∀ k, loopMode s.visualizerType = true → fails k = true →
       (List.range k).all (fun m => !fails m) = true → k < fuel →
       (visualize fails fuel s).1.pending = none ∧
       (∀ j, VEv.rendered j ∈ (visualize fails fuel s).2 → j < k)) ∧
    (loopMode s.visualizerType = false →
       (visualize fails fuel s).1.pending = none ∧
       (∀ j, VEv.rendered j ∉ (visualize fails fuel s).2)) := by
  rcases s with ⟨pend, tok, vt⟩
  refine ⟨?_, ?_, ?_⟩
  · intro t hp
    simp only at hp
    subst hp
    by_cases hm : loopMode vt = true <;> simp [visualize, hm]
  · intro k hm hk hfirst hfuel
    simp only at hm
    have hfirst2 : ∀ m, m < k → fails m = false := by
      intro m hmk
      have hh := List.all_eq_true.mp hfirst m (List.mem_range.mpr hmk)
      simpa using hh
    have hdl := drawLoop_halts_after_failure fails k fuel 0 ⟨none, tok, vt⟩
        (by simpa using hk) (by simpa using hfirst2) hfuel
    cases pend with
    | none =>
        have hv : visualize fails fuel ⟨none, tok, vt⟩ =
            drawLoop fails fuel 0 ⟨none, tok, vt⟩ := by
          simp [visualize, hm]
        rw [hv]
        refine ⟨hdl.1, ?_⟩
        intro j hj
        have hlt := hdl.2 j hj
        omega
    | some t =>
        have hv : visualize fails fuel ⟨some t, tok, vt⟩ =
            ((drawLoop fails fuel 0 ⟨none, tok, vt⟩).1,
             VEv.canceled t :: (drawLoop fails fuel 0 ⟨none, tok, vt⟩).2) := by
          simp [visualize, hm]
        rw [hv]
        refine ⟨hdl.1, ?_⟩
        intro j hj
        simp only [List.mem_cons] at hj
        rcases hj with hj | hj
        · exact absurd hj (by simp)
        · have hlt := hdl.2 j hj
          omega
  · intro hm
    simp only at hm
    cases pend <;> refine ⟨?_, ?_⟩ <;> simp [visualize, hm]

/-- A visualizer state in bar mode with a pending frame token. -/
def viz0 : VizState := ⟨some 5, 10, "bar"⟩

/-- A visualizer state in a non-loop mode with a pending frame token. -/
def vizNone : VizState := ⟨some 7, 9, "off"⟩

/-- Witness for C8: in bar mode with token 5 pending and frame 2 failing, the
old loop is canceled first and nothing stays scheduled; in a non-loop mode the
pending loop is canceled first and nothing is rendered. -/
theorem visualize_cancels_witness :
    (visualize (fun i => i == 2) 10 viz0).2.head? = some (VEv.canceled 5) ∧
    (visualize (fun i => i == 2) 10 viz0).1.pending = none ∧
    (visualize (fun i => i == 2) 10 vizNone).2.head? = some (VEv.canceled 7) ∧
    (visualize (fun i => i == 2) 10 vizNone).1.pending = none := by
  have h := visualize_cancels_then_halts_on_failure (fun i => i == 2) 10 viz0
  have hn := visualize_cancels_then_halts_on_failure (fun i => i == 2) 10 vizNone
  exact ⟨h.1 5 rfl, (h.2.1 2 (by decide) rfl (by decide) (by decide)).1,
    hn.1 7 rfl, (hn.2.2 (by decide)).1⟩

end AudioViz
